import Mathlib

/-!
# Answer-evaluation engine of `backend/app/routers/life_words_questions.py`

Shallow embedding of the free-form answer evaluator and the question
generator.  Strings are modelled as `List Char` (`Str`); Python's
`str.lower` / `str.upper` are modelled on the ASCII range (all lexical
constants in the source are ASCII); Python floats are modelled as exact
rationals (`ℚ`); Python `set`s of words are modelled as deduplicated
lists, so list length coincides with set cardinality.  Code paths that
can raise (`IndexError` on `expected.split()[0]` and on `shuffled[0]`)
are modelled with `Option`, `none` standing for the raised exception.
The randomness of `random.shuffle` is modelled by passing the shuffled
list as an explicit argument.
-/

abbrev Str := List Char

/-- The characters `str.strip()` / `str.split()` treat as whitespace
(ASCII range: space, tab, newline, carriage return, vertical tab, form feed). -/
def isSpaceChar (c : Char) : Bool :=
  c = ' ' || c = '\t' || c = '\n' || c = '\r' || c = Char.ofNat 11 || c = Char.ofNat 12

/-- ASCII model of Python `str.lower` on a single character. -/
def lowerChar : Char → Char
  | 'A' => 'a' | 'B' => 'b' | 'C' => 'c' | 'D' => 'd' | 'E' => 'e' | 'F' => 'f'
  | 'G' => 'g' | 'H' => 'h' | 'I' => 'i' | 'J' => 'j' | 'K' => 'k' | 'L' => 'l'
  | 'M' => 'm' | 'N' => 'n' | 'O' => 'o' | 'P' => 'p' | 'Q' => 'q' | 'R' => 'r'
  | 'S' => 's' | 'T' => 't' | 'U' => 'u' | 'V' => 'v' | 'W' => 'w' | 'X' => 'x'
  | 'Y' => 'y' | 'Z' => 'z'
  | c => c

/-- ASCII model of Python `str.upper` on a single character. -/
def upperChar : Char → Char
  | 'a' => 'A' | 'b' => 'B' | 'c' => 'C' | 'd' => 'D' | 'e' => 'E' | 'f' => 'F'
  | 'g' => 'G' | 'h' => 'H' | 'i' => 'I' | 'j' => 'J' | 'k' => 'K' | 'l' => 'L'
  | 'm' => 'M' | 'n' => 'N' | 'o' => 'O' | 'p' => 'P' | 'q' => 'Q' | 'r' => 'R'
  | 's' => 'S' | 't' => 'T' | 'u' => 'U' | 'v' => 'V' | 'w' => 'W' | 'x' => 'X'
  | 'y' => 'Y' | 'z' => 'Z'
  | c => c

def isAlphaChar (c : Char) : Bool :=
  ('a' ≤ c && c ≤ 'z') || ('A' ≤ c && c ≤ 'Z')

/-- Python `str.lower` (ASCII model). -/
def lower (s : Str) : Str := s.map lowerChar

/-- Python `str.strip()`: remove leading and trailing whitespace. -/
def strip (s : Str) : Str :=
  ((s.dropWhile isSpaceChar).reverse.dropWhile isSpaceChar).reverse

/-- Python `str.title()` (ASCII model): uppercase every character that
follows a non-alphabetic character, lowercase the rest. -/
def titleAux : Str → Bool → Str
  | [], _ => []
  | c :: rest, prevAlpha =>
    (if prevAlpha then lowerChar c else upperChar c) :: titleAux rest (isAlphaChar c)

def title (s : Str) : Str := titleAux s false

/-- Helper for `splitWs`: accumulates the current word in reverse. -/
def splitWsAux : Str → Str → List Str
  | [], acc => if acc = [] then [] else [acc.reverse]
  | c :: rest, acc =>
    if isSpaceChar c then
      if acc = [] then splitWsAux rest [] else acc.reverse :: splitWsAux rest []
    else
      splitWsAux rest (c :: acc)

/-- Python `str.split()` with no argument: split on runs of whitespace,
discarding empty tokens. -/
def splitWs (s : Str) : List Str := splitWsAux s []

/-- `needle` occurs contiguously in `hay` starting at position 0. -/
def isSubAt : Str → Str → Bool
  | [], _ => true
  | _ :: _, [] => false
  | a :: as, b :: bs => a = b && isSubAt as bs

/-- Python substring test `needle in hay`. -/
def containsSub : Str → Str → Bool
  | needle, [] => isSubAt needle []
  | needle, c :: rest => isSubAt needle (c :: rest) || containsSub needle rest

/-- Python `set(s.split())`, as a deduplicated list. -/
def wordSet (s : Str) : List Str := (splitWs s).dedup

/-- Python set intersection `l1 & l2` on deduplicated lists. -/
def setInter (l1 l2 : List Str) : List Str := l1.filter (fun w => decide (w ∈ l2))

/-- Python set difference `l1 - l2` on deduplicated lists. -/
def setDiff (l1 l2 : List Str) : List Str := l1.filter (fun w => decide (w ∉ l2))

def str (s : String) : Str := s.data

/-- `STOP_WORDS` from the source. -/
def STOP_WORDS : List Str :=
  [str "a", str "an", str "the",
   str "in", str "on", str "at", str "to", str "for", str "of", str "with",
   str "by", str "from", str "up", str "down",
   str "into", str "onto", str "upon", str "out", str "over", str "under",
   str "through", str "during",
   str "and", str "or", str "but", str "so", str "yet", str "nor",
   str "i", str "me", str "my", str "we", str "us", str "our", str "you",
   str "your", str "he", str "him", str "his",
   str "she", str "her", str "it", str "its", str "they", str "them",
   str "their", str "who", str "whom",
   str "is", str "are", str "was", str "were", str "be", str "been",
   str "being", str "am",
   str "do", str "does", str "did", str "doing", str "done",
   str "have", str "has", str "had", str "having",
   str "go", str "goes", str "went", str "going", str "gone",
   str "get", str "gets", str "got", str "getting",
   str "see", str "sees", str "saw", str "seeing", str "seen",
   str "come", str "comes", str "came", str "coming",
   str "take", str "takes", str "took", str "taking", str "taken",
   str "make", str "makes", str "made", str "making",
   str "know", str "knows", str "knew", str "knowing", str "known",
   str "think", str "thinks", str "thought", str "thinking",
   str "say", str "says", str "said", str "saying",
   str "like", str "likes", str "liked", str "liking",
   str "want", str "wants", str "wanted", str "wanting",
   str "can", str "could", str "will", str "would", str "shall",
   str "should", str "may", str "might", str "must",
   str "very", str "really", str "just", str "also", str "too",
   str "always", str "never", str "often",
   str "sometimes", str "usually", str "when", str "where", str "why",
   str "how", str "there", str "here",
   str "that", str "this", str "these", str "those", str "what", str "which",
   str "all", str "each", str "every", str "some", str "any", str "no",
   str "not",
   str "as", str "if", str "then", str "than", str "because", str "while",
   str "about"]

/-- `extract_significant_words` from the source:
`set(text.lower().split()) - STOP_WORDS`. -/
def extract_significant_words (text : Str) : List Str :=
  setDiff (wordSet (lower text)) STOP_WORDS

/-- `SYNONYM_GROUPS` from the source. -/
def SYNONYM_GROUPS : List (List Str) :=
  [[str "daughter", str "girl", str "child", str "kid"],
   [str "son", str "boy", str "child", str "kid"],
   [str "spouse", str "husband", str "wife", str "partner"],
   [str "grandchild", str "grandkid", str "grandson", str "granddaughter"],
   [str "parent", str "mom", str "dad", str "mother", str "father"],
   [str "sibling", str "brother", str "sister"],
   [str "friend", str "buddy", str "pal", str "companion"],
   [str "caregiver", str "helper", str "aide", str "nurse"],
   [str "outgoing", str "social", str "extroverted", str "friendly",
    str "sociable", str "talkative"],
   [str "reserved", str "quiet", str "shy", str "introverted", str "private"],
   [str "optimistic", str "positive", str "cheerful", str "upbeat", str "hopeful"],
   [str "cautious", str "careful", str "prudent", str "wary"],
   [str "friendly", str "kind", str "nice", str "warm", str "caring",
    str "loving", str "sweet"],
   [str "energetic", str "active", str "lively", str "spirited", str "dynamic"],
   [str "calm", str "peaceful", str "relaxed", str "mellow", str "easygoing",
    str "laid back"],
   [str "funny", str "humorous", str "witty", str "hilarious", str "comedic"],
   [str "smart", str "intelligent", str "clever", str "bright", str "wise"],
   [str "generous", str "giving", str "charitable", str "kind"],
   [str "patient", str "understanding", str "tolerant"],
   [str "hardworking", str "diligent", str "dedicated", str "industrious"],
   [str "home", str "house", str "my place", str "their place", str "residence"],
   [str "church", str "temple", str "synagogue", str "mosque",
    str "place of worship"],
   [str "work", str "office", str "job", str "workplace"],
   [str "school", str "class", str "college", str "university"],
   [str "park", str "playground", str "outside", str "outdoors"],
   [str "store", str "shop", str "market", str "mall"],
   [str "restaurant", str "diner", str "cafe", str "eatery"],
   [str "hospital", str "clinic", str "doctor", str "medical"]]

/-- `find_synonym_match` from the source. -/
def find_synonym_match (word1 word2 : Str) : Bool :=
  let w1 := strip (lower word1)
  let w2 := strip (lower word2)
  SYNONYM_GROUPS.any (fun group => decide (w1 ∈ group) && decide (w2 ∈ group))

/-- `words_are_similar` from the source: returns
`(score >= 0.5, score)` with `score = matches / max(len(user_words), len(expected_words))`,
where `matches` counts user words having an equal or synonymous expected word. -/
def words_are_similar (user_words expected_words : List Str) : Bool × ℚ :=
  if user_words = [] ∨ expected_words = [] then (false, 0)
  else
    let matchCount :=
      (user_words.filter
        (fun uw => expected_words.any
          (fun ew => decide (uw = ew) || find_synonym_match uw ew))).length
    let score : ℚ := mkRat matchCount (max user_words.length expected_words.length)
    (decide (score ≥ mkRat 1 2), score)

/-- The six matching-strategy toggles read out of the Python `settings`
dict (each `settings.get(key, True)`); a dict with no relevant keys,
or `settings = None`, corresponds to `defaultSettings`. -/
structure EvalSettings where
  match_acceptable_alternatives : Bool
  match_partial_substring : Bool
  match_word_overlap : Bool
  match_stop_word_filtering : Bool
  match_synonyms : Bool
  match_first_name_only : Bool

def defaultSettings : EvalSettings := ⟨true, true, true, true, true, true⟩

/-- The tail of `evaluate_answer` after the exact / acceptable-alternatives /
first-name tiers: substring containment, word overlap, stop-word filtering
and synonym matching.  None of these tiers can raise. -/
def evalRest (user_lower expected_lower : Str) (s : EvalSettings) : Bool × Bool × ℚ :=
  if s.match_partial_substring = true ∧
     (containsSub expected_lower user_lower = true ∨
      containsSub user_lower expected_lower = true) then
    (true, true, mkRat 8 10)
  else
    let user_words := wordSet user_lower
    let expected_words := wordSet expected_lower
    let common := setInter user_words expected_words
    let overlapScore : ℚ :=
      mkRat common.length (max user_words.length expected_words.length)
    if s.match_word_overlap = true ∧ common ≠ [] ∧ overlapScore ≥ mkRat 1 2 then
      (true, true, overlapScore)
    else
      let user_significant := extract_significant_words user_lower
      let expected_significant := extract_significant_words expected_lower
      let significant_common := setInter user_significant expected_significant
      let sigScore : ℚ :=
        mkRat significant_common.length
          (max user_significant.length expected_significant.length)
      if s.match_stop_word_filtering = true ∧ user_significant ≠ [] ∧
         expected_significant ≠ [] ∧ significant_common ≠ [] ∧
         (sigScore ≥ mkRat 3 10 ∨ significant_common.length ≥ 1) then
        (true, true, max (mkRat 7 10) sigScore)
      else if s.match_synonyms = true then
        let ws := words_are_similar user_words expected_words
        let ws2 := words_are_similar user_significant expected_significant
        if ws.1 = true then (true, true, ws.2)
        else if s.match_stop_word_filtering = true ∧ user_significant ≠ [] ∧
                expected_significant ≠ [] ∧ ws2.1 = true then
          (true, true, ws2.2)
        else if user_words.any
               (fun uw => expected_words.any (fun ew => find_synonym_match uw ew)) = true then
          (true, true, mkRat 7 10)
        else (false, false, 0)
      else (false, false, 0)

/-- `evaluate_answer` from the source.  Returns `none` exactly when the
Python code raises (`expected.split()[0]` with `expected` made of
whitespace only but containing a space, while first-name matching is
enabled); otherwise `some (is_correct, is_partial, correctness_score)`. -/
def evaluate_answer (user_answer expected : Str) (acceptable : List Str)
    (s : EvalSettings) : Option (Bool × Bool × ℚ) :=
  if user_answer = [] then some (false, false, 0)
  else
    let user_lower := strip (lower user_answer)
    let expected_lower := strip (lower expected)
    if user_lower = expected_lower then some (true, false, 1)
    else if s.match_acceptable_alternatives = true ∧
            acceptable.any
              (fun alt => decide (alt ≠ []) && decide (user_lower = lower alt)) = true then
      some (true, false, 1)
    else if s.match_first_name_only = true ∧ ' ' ∈ expected then
      match splitWs expected with
      | [] => none
      | w :: _ =>
        if user_lower = lower w then some (true, true, mkRat 9 10)
        else some (evalRest user_lower expected_lower s)
    else some (evalRest user_lower expected_lower s)

/-! ## Question generation (`generate_questions_for_contacts`) -/

/-- A row of the `personal_contacts` table as consumed by the generator:
the keys accessed with `c[...]` are mandatory fields, the keys accessed
with `c.get(...)` are optional fields (`none` = key absent / SQL NULL). -/
structure Contact where
  id : Str
  name : Str
  photo_url : Str
  relationship : Str
  location_context : Option Str
  association : Option Str
  interests : Option Str
  personality : Option Str
  description : Option Str
  nickname : Option Str

/-- `GeneratedQuestion` Pydantic model (`question_type` is the
`QuestionType` integer constant). -/
structure GeneratedQuestion where
  contact_id : Str
  contact_name : Str
  contact_photo_url : Str
  question_type : Nat
  question_text : Str
  expected_answer : Str
  acceptable_answers : List Str

/-- `QuestionType` integer constants from `app.models.schemas`. -/
def QT_RELATIONSHIP : Nat := 1
def QT_ASSOCIATION : Nat := 2
def QT_INTERESTS : Nat := 3
def QT_PERSONALITY : Nat := 4
def QT_NAME_FROM_DESC : Nat := 5

/-- `RELATIONSHIP_ALTERNATIVES` from the source. -/
def RELATIONSHIP_ALTERNATIVES : List (Str × List Str) :=
  [(str "child", [str "child", str "son", str "daughter", str "kid",
     str "my child", str "my son", str "my daughter"]),
   (str "spouse", [str "spouse", str "husband", str "wife", str "partner",
     str "my spouse", str "my husband", str "my wife"]),
   (str "grandchild", [str "grandchild", str "grandson", str "granddaughter",
     str "grandkid", str "my grandchild", str "my grandson", str "my granddaughter"]),
   (str "parent", [str "parent", str "mother", str "father", str "mom", str "dad",
     str "my parent", str "my mother", str "my father", str "my mom", str "my dad"]),
   (str "sibling", [str "sibling", str "brother", str "sister",
     str "my sibling", str "my brother", str "my sister"]),
   (str "friend", [str "friend", str "my friend", str "buddy", str "pal"]),
   (str "pet", [str "pet", str "my pet", str "dog", str "cat", str "animal"]),
   (str "caregiver", [str "caregiver", str "my caregiver", str "helper",
     str "aide", str "nurse"]),
   (str "neighbor", [str "neighbor", str "my neighbor"]),
   (str "other", [str "other"])]

/-- `get_relationship_alternatives` from the source. -/
def get_relationship_alternatives (relationship : Str) : List Str :=
  let rel_lower := lower relationship
  match RELATIONSHIP_ALTERNATIVES.find? (fun kv => decide (kv.1 = rel_lower)) with
  | some kv => kv.2
  | none => [lower relationship, title relationship, relationship]

/-- Python `a or b` on optional strings (`None` and `""` are falsy). -/
def pyStrOr (a b : Option Str) : Option Str :=
  match a with
  | some sa => if sa = [] then b else some sa
  | none => b

/-- Python `a or d` where the fallback `d` is a plain string. -/
def pyStrOrD (a : Option Str) (d : Str) : Str :=
  match a with
  | some sa => if sa = [] then d else sa
  | none => d

/-- The `for contact in shuffled: ... break` scan locating the first
contact with a truthy interests / description / personality field. -/
def findHintContact : List Contact → Option (Contact × Str)
  | [] => none
  | c :: rest =>
    match pyStrOr c.interests (pyStrOr c.description c.personality) with
    | some h => if h = [] then findHintContact rest else some (c, h)
    | none => findHintContact rest

/-- An apostrophe character (used inside generated question texts). -/
def apos : Str := [Char.ofNat 39]

/-- `generate_questions_for_contacts` from the source.  `shuffled`
stands for the result of `random.shuffle` on a copy of `contacts`;
`none` models a raised `IndexError` (possible when `shuffled` is empty
with two or more contacts, or when contact 5's name consists of
whitespace containing a space).  The guarded index
`hint_lower.split()[0]` cannot fail because `hint_lower` is stripped,
so it is modelled with `headD`. -/
def generate_questions_for_contacts (contacts : List Contact)
    (shuffled : List Contact) : Option (List GeneratedQuestion) :=
  if contacts.length < 2 then some []
  else
    match shuffled with
    | [] => none
    | c1 :: rest =>
      let relationship := c1.relationship
      let relationship_alternatives := get_relationship_alternatives relationship
      let q1 : GeneratedQuestion :=
        { contact_id := c1.id, contact_name := c1.name,
          contact_photo_url := c1.photo_url, question_type := QT_RELATIONSHIP,
          question_text := str "What is " ++ c1.name ++ apos ++
            str "s relationship to you?",
          expected_answer := relationship,
          acceptable_answers := relationship_alternatives }
      let c2 := match rest with | [] => c1 | c :: _ => c
      let location := pyStrOrD (pyStrOr c2.location_context c2.association)
        (str "at home")
      let q2 : GeneratedQuestion :=
        { contact_id := c2.id, contact_name := c2.name,
          contact_photo_url := c2.photo_url, question_type := QT_ASSOCIATION,
          question_text := str "Where do you usually see " ++ c2.name ++ str "?",
          expected_answer := location,
          acceptable_answers := if location ≠ [] then [lower location] else [] }
      let c3 := c1
      let interests := pyStrOrD c3.interests (str "spending time together")
      let q3 : GeneratedQuestion :=
        { contact_id := c3.id, contact_name := c3.name,
          contact_photo_url := c3.photo_url, question_type := QT_INTERESTS,
          question_text := str "What does " ++ c3.name ++ str " enjoy doing?",
          expected_answer := interests,
          acceptable_answers := if interests ≠ [] then [lower interests] else [] }
      let c4 := c2
      let personality := pyStrOrD (pyStrOr c4.personality c4.description)
        (str "kind and caring")
      let q4 : GeneratedQuestion :=
        { contact_id := c4.id, contact_name := c4.name,
          contact_photo_url := c4.photo_url, question_type := QT_PERSONALITY,
          question_text := str "How would you describe " ++ c4.name ++ apos ++
            str "s personality?",
          expected_answer := personality,
          acceptable_answers := if personality ≠ [] then [lower personality] else [] }
      match findHintContact (c1 :: rest) with
      | none => some [q1, q2, q3, q4]
      | some (c5, hint0) =>
        let relationship5 := c5.relationship
        let hint_lower := strip (lower hint0)
        let first_word := if hint_lower = [] then [] else (splitWs hint_lower).headD []
        let decap : Str := match hint0 with | [] => [] | c :: cs => lowerChar c :: cs
        let hint :=
          if isSubAt (str "loves") hint_lower || isSubAt (str "enjoys") hint_lower ||
             isSubAt (str "likes") hint_lower || isSubAt (str "is ") hint_lower then
            decap
          else if (str "ing").isSuffixOf first_word then
            str "loves " ++ decap
          else
            str "loves " ++ hint0
        let secondAlt : Option Str :=
          if ' ' ∈ c5.name then
            match splitWs c5.name with
            | [] => none
            | w :: _ => some (lower w)
          else some (lower c5.name)
        match secondAlt with
        | none => none
        | some alt2 =>
          let alt3 : Str :=
            match c5.nickname with
            | some nk => if nk = [] then [] else lower nk
            | none => []
          let q5 : GeneratedQuestion :=
            { contact_id := c5.id, contact_name := c5.name,
              contact_photo_url := c5.photo_url, question_type := QT_NAME_FROM_DESC,
              question_text := str "Who is your " ++ relationship5 ++ str " who " ++
                hint ++ str "?",
              expected_answer := c5.name,
              acceptable_answers := [lower c5.name, alt2, alt3] }
          some [q1, q2, q3, q4, q5]

/-! ## Supporting lemmas -/

lemma isSpaceChar_lowerChar (c : Char) : isSpaceChar (lowerChar c) = isSpaceChar c := by
  unfold lowerChar
  split <;> rfl

lemma dropWhile_eq_self_of_none (p : Char → Bool) (l : Str)
    (h : ∀ c ∈ l, p c = false) : l.dropWhile p = l := by
  cases l with
  | nil => rfl
  | cons a t => simp [List.dropWhile_cons, h a (by simp)]

lemma strip_eq_self_of_none (s : Str) (h : ∀ c ∈ s, isSpaceChar c = false) :
    strip s = s := by
  unfold strip
  rw [dropWhile_eq_self_of_none _ _ h,
    dropWhile_eq_self_of_none _ _ (fun c hc => h c (List.mem_reverse.mp hc)),
    List.reverse_reverse]

lemma dropWhile_eq_nil_of_all (p : Char → Bool) (l : Str)
    (h : ∀ c ∈ l, p c = true) : l.dropWhile p = [] := by
  induction l with
  | nil => rfl
  | cons a t ih =>
    rw [List.dropWhile_cons, if_pos (h a (by simp))]
    exact ih (fun c hc => h c (by simp [hc]))

lemma strip_eq_nil_of_all (s : Str) (h : ∀ c ∈ s, isSpaceChar c = true) :
    strip s = [] := by
  unfold strip
  rw [dropWhile_eq_nil_of_all _ _ h]
  simp

lemma exists_mem_dropWhile (p : Char → Bool) (l : Str)
    (h : ∃ c ∈ l, p c = false) : ∃ c ∈ l.dropWhile p, p c = false := by
  induction l with
  | nil => simp at h
  | cons a t ih =>
    rw [List.dropWhile_cons]
    by_cases hpa : p a = true
    · rw [if_pos hpa]
      apply ih
      obtain ⟨c, hc, hpc⟩ := h
      rcases List.mem_cons.mp hc with rfl | hct
      · rw [hpa] at hpc; exact absurd hpc (by simp)
      · exact ⟨c, hct, hpc⟩
    · rw [if_neg hpa]
      exact h

lemma strip_ne_nil (s : Str) (h : ∃ c ∈ s, isSpaceChar c = false) :
    strip s ≠ [] := by
  unfold strip
  intro hcon
  have h1 := exists_mem_dropWhile isSpaceChar s h
  have h2 : ∃ c ∈ (s.dropWhile isSpaceChar).reverse, isSpaceChar c = false := by
    obtain ⟨c, hc, hpc⟩ := h1
    exact ⟨c, List.mem_reverse.mpr hc, hpc⟩
  have h3 := exists_mem_dropWhile isSpaceChar _ h2
  rw [List.reverse_eq_nil_iff] at hcon
  rw [hcon] at h3
  simp at h3

lemma splitWsAux_no_space (l : Str) :
    ∀ acc : Str, (∀ c ∈ l, isSpaceChar c = false) →
      splitWsAux l acc = if acc = [] ∧ l = [] then [] else [acc.reverse ++ l] := by
  induction l with
  | nil =>
    intro acc _
    unfold splitWsAux
    by_cases ha : acc = [] <;> simp [ha]
  | cons a t ih =>
    intro acc h
    unfold splitWsAux
    rw [if_neg (by simp [h a (by simp)])]
    rw [ih (a :: acc) (fun c hc => h c (by simp [hc]))]
    simp

lemma splitWs_single (s : Str) (h1 : s ≠ []) (h2 : ∀ c ∈ s, isSpaceChar c = false) :
    splitWs s = [s] := by
  unfold splitWs
  rw [splitWsAux_no_space s [] h2]
  simp [h1]

lemma mem_splitWsAux_ne_nil (l : Str) :
    ∀ acc w, w ∈ splitWsAux l acc → w ≠ [] := by
  induction l with
  | nil =>
    intro acc w hw
    unfold splitWsAux at hw
    by_cases ha : acc = []
    · simp [ha] at hw
    · rw [if_neg ha] at hw
      simp only [List.mem_singleton] at hw
      subst hw
      simpa using ha
  | cons a t ih =>
    intro acc w hw
    unfold splitWsAux at hw
    by_cases hsp : isSpaceChar a = true
    · rw [if_pos hsp] at hw
      by_cases ha : acc = []
      · rw [if_pos ha] at hw
        exact ih [] w hw
      · rw [if_neg ha] at hw
        rcases List.mem_cons.mp hw with rfl | hw'
        · simpa using ha
        · exact ih [] w hw'
    · rw [if_neg hsp] at hw
      exact ih _ w hw

lemma mem_splitWs_ne_nil (s : Str) (w : Str) (hw : w ∈ splitWs s) : w ≠ [] :=
  mem_splitWsAux_ne_nil s [] w hw

lemma splitWsAux_ne_nil (l : Str) :
    ∀ acc : Str, (acc ≠ [] ∨ ∃ c ∈ l, isSpaceChar c = false) →
      splitWsAux l acc ≠ [] := by
  induction l with
  | nil =>
    intro acc h
    unfold splitWsAux
    rcases h with ha | ⟨c, hc, _⟩
    · simp [ha]
    · simp at hc
  | cons a t ih =>
    intro acc h
    unfold splitWsAux
    by_cases hsp : isSpaceChar a = true
    · rw [if_pos hsp]
      by_cases ha : acc = []
      · rw [if_pos ha]
        apply ih []
        right
        rcases h with ha' | ⟨c, hc, hpc⟩
        · exact absurd ha ha'
        · rcases List.mem_cons.mp hc with rfl | hct
          · rw [hsp] at hpc; exact absurd hpc (by simp)
          · exact ⟨c, hct, hpc⟩
      · rw [if_neg ha]
        simp
    · rw [if_neg hsp]
      apply ih
      left
      simp

lemma splitWs_ne_nil (s : Str) (h : ∃ c ∈ s, isSpaceChar c = false) :
    splitWs s ≠ [] :=
  splitWsAux_ne_nil s [] (Or.inr h)

lemma lower_all_space (s : Str) (h : ∀ c ∈ s, isSpaceChar c = true) :
    ∀ c ∈ lower s, isSpaceChar c = true := by
  intro c hc
  obtain ⟨c0, hc0, rfl⟩ := List.mem_map.mp hc
  rw [isSpaceChar_lowerChar]
  exact h c0 hc0

lemma lower_exists_nonspace (s : Str) (h : ∃ c ∈ s, isSpaceChar c = false) :
    ∃ c ∈ lower s, isSpaceChar c = false := by
  obtain ⟨c, hc, hpc⟩ := h
  exact ⟨lowerChar c, List.mem_map_of_mem _ hc,
    by rw [isSpaceChar_lowerChar]; exact hpc⟩

lemma lower_ne_nil (s : Str) (h : s ≠ []) : lower s ≠ [] := by
  unfold lower
  simpa using h

lemma containsSub_nil (hay : Str) : containsSub [] hay = true := by
  cases hay <;> simp [containsSub, isSubAt]

lemma natDiv_bounds (a b c : ℕ) (hab : a ≤ b) (hb : 0 < b) :
    0 ≤ mkRat a (max b c) ∧ mkRat a (max b c) ≤ 1 := by
  rw [Rat.mkRat_eq_div]
  have hmax : 0 < max b c := lt_of_lt_of_le hb (le_max_left b c)
  have hmaxQ : (0 : ℚ) < ((max b c : ℕ) : ℚ) := by exact_mod_cast hmax
  constructor
  · positivity
  · rw [div_le_one hmaxQ]
    have : (a : ℚ) ≤ ((max b c : ℕ) : ℚ) := by
      exact_mod_cast le_trans hab (le_max_left b c)
    exact_mod_cast this

lemma words_are_similar_snd (l1 l2 : List Str) (h1 : l1 ≠ []) (h2 : l2 ≠ []) :
    (words_are_similar l1 l2).2 =
      mkRat (l1.filter
        (fun uw => l2.any
          (fun ew => decide (uw = ew) || find_synonym_match uw ew))).length
        (max l1.length l2.length) := by
  unfold words_are_similar
  rw [if_neg (by simp [h1, h2])]

lemma words_are_similar_bounds (l1 l2 : List Str) :
    0 ≤ (words_are_similar l1 l2).2 ∧ (words_are_similar l1 l2).2 ≤ 1 := by
  by_cases h1 : l1 = []
  · unfold words_are_similar
    rw [if_pos (Or.inl h1)]
    simp
  by_cases h2 : l2 = []
  · unfold words_are_similar
    rw [if_pos (Or.inr h2)]
    simp
  rw [words_are_similar_snd l1 l2 h1 h2]
  exact natDiv_bounds _ _ _ (List.length_filter_le _ _) (List.length_pos.mpr h1)

lemma filter_ne_nil_base {p : Str → Bool} {l : List Str}
    (h : l.filter p ≠ []) : l ≠ [] := by
  intro hl
  rw [hl] at h
  simp at h

lemma evalRest_partial_imp (ul el : Str) (s : EvalSettings) :
    (evalRest ul el s).2.1 = true → (evalRest ul el s).1 = true := by
  simp only [evalRest]
  repeat' split
  all_goals simp

lemma evalRest_score_bounds (ul el : Str) (s : EvalSettings) :
    0 ≤ (evalRest ul el s).2.2 ∧ (evalRest ul el s).2.2 ≤ 1 := by
  simp only [evalRest]
  split_ifs with h1 h2 h3 h4 h5 h6 h7
  · constructor <;> norm_num
  · obtain ⟨-, hcom, -⟩ := h2
    exact natDiv_bounds _ _ _ (List.length_filter_le _ _)
      (List.length_pos.mpr (filter_ne_nil_base hcom))
  · obtain ⟨-, -, -, hcom, -⟩ := h3
    have hsig := natDiv_bounds
      ((setInter (extract_significant_words ul) (extract_significant_words el)).length)
      (extract_significant_words ul).length (extract_significant_words el).length
      (List.length_filter_le _ _) (List.length_pos.mpr (filter_ne_nil_base hcom))
    constructor
    · exact le_max_of_le_left (by norm_num)
    · exact max_le (by norm_num) hsig.2
  · exact words_are_similar_bounds _ _
  · exact words_are_similar_bounds _ _
  · constructor <;> norm_num
  · constructor <;> norm_num
  · constructor <;> norm_num

/-! ## Claims -/

/-- Claim C1 counterexample: the expected answer " " is non-empty and the
empty user answer equals it case-insensitively after stripping, yet
`evaluate_answer` returns `(false, false, 0)` (the empty-input guard fires
first), not `(true, false, 1)`. -/
theorem claim_C1_counterexample :
    str " " ≠ [] ∧
    strip (lower (str "")) = strip (lower (str " ")) ∧
    evaluate_answer (str "") (str " ") [] defaultSettings = some (false, false, 0) := by
  refine ⟨by decide, by decide, by decide⟩

/-- Claim C1 (amended): for every non-empty expected answer E and every
non-empty user answer U that equals E case-insensitively after stripping,
`evaluate_answer` returns `(true, false, 1)` for every acceptable-answers
list and every settings value. -/
theorem claim_C1_exact_match (U E : Str) (acceptable : List Str) (s : EvalSettings)
    (_hE : E ≠ []) (hU : U ≠ []) (h : strip (lower U) = strip (lower E)) :
    evaluate_answer U E acceptable s = some (true, false, 1) := by
  simp only [evaluate_answer]
  rw [if_neg hU, if_pos h]

theorem claim_C1_witness :
    str " a " ≠ [] ∧ str "A" ≠ [] ∧
    strip (lower (str "A")) = strip (lower (str " a ")) ∧
    evaluate_answer (str "A") (str " a ") [] defaultSettings = some (true, false, 1) :=
  ⟨by decide, by decide, by decide,
    claim_C1_exact_match (str "A") (str " a ") [] defaultSettings
      (by decide) (by decide) (by decide)⟩

/-- Claim C2: whenever `evaluate_answer` returns a result, `is_partial` is
true only if `is_correct` is true. -/
theorem claim_C2_partial_implies_correct (ua e : Str) (acceptable : List Str)
    (s : EvalSettings) (r : Bool × Bool × ℚ)
    (h : evaluate_answer ua e acceptable s = some r) :
    r.2.1 = true → r.1 = true := by
  simp only [evaluate_answer] at h
  repeat' split at h
  any_goals exact Option.noConfusion h
  all_goals (injection h with h2; subst h2)
  all_goals first
    | exact evalRest_partial_imp _ _ _
    | decide

theorem claim_C2_witness :
    ((true, true, mkRat 8 10) : Bool × Bool × ℚ).1 = true :=
  claim_C2_partial_implies_correct (str "my son john") (str "son") [] defaultSettings
    (true, true, mkRat 8 10) (by decide) (by decide)

/-- Claim C3: whenever `evaluate_answer` returns a result, the
correctness score lies in the closed interval [0, 1]. -/
theorem claim_C3_score_in_unit_interval (ua e : Str) (acceptable : List Str)
    (s : EvalSettings) (r : Bool × Bool × ℚ)
    (h : evaluate_answer ua e acceptable s = some r) :
    0 ≤ r.2.2 ∧ r.2.2 ≤ 1 := by
  simp only [evaluate_answer] at h
  repeat' split at h
  any_goals exact Option.noConfusion h
  all_goals (injection h with h2; subst h2)
  all_goals first
    | exact evalRest_score_bounds _ _ _
    | (constructor <;> norm_num)

theorem claim_C3_witness :
    0 ≤ ((true, false, (1 : ℚ)) : Bool × Bool × ℚ).2.2 ∧
      ((true, false, (1 : ℚ)) : Bool × Bool × ℚ).2.2 ≤ 1 :=
  claim_C3_score_in_unit_interval (str "son") (str "son") [] defaultSettings
    (true, false, 1) (by decide)

/-- Claim C4: when all six optional strategy flags are false and the user
answer is not an exact case-insensitive trimmed match of the expected
answer, `evaluate_answer` returns `(false, false, 0)` for every acceptable
list. -/
theorem claim_C4_all_flags_off (U E : Str) (acceptable : List Str) (s : EvalSettings)
    (h1 : s.match_acceptable_alternatives = false)
    (h2 : s.match_partial_substring = false)
    (h3 : s.match_word_overlap = false)
    (h4 : s.match_stop_word_filtering = false)
    (h5 : s.match_synonyms = false)
    (h6 : s.match_first_name_only = false)
    (hne : strip (lower U) ≠ strip (lower E)) :
    evaluate_answer U E acceptable s = some (false, false, 0) := by
  by_cases hU : U = []
  · simp only [evaluate_answer, if_pos hU]
  · simp only [evaluate_answer, evalRest, h1, h2, h3, h4, h5, h6]
    rw [if_neg hU, if_neg hne]
    simp

theorem claim_C4_witness :
    evaluate_answer (str "x") (str "y") [str "x"]
      ⟨false, false, false, false, false, false⟩ = some (false, false, 0) :=
  claim_C4_all_flags_off (str "x") (str "y") [str "x"]
    ⟨false, false, false, false, false, false⟩
    rfl rfl rfl rfl rfl rfl (by decide)

/-- Claim C5 counterexample: `evaluate_answer "friendly" "nice" [] default`
does not return score 7/10: the synonym word-set similarity tier fires
first with score 1/1 = 1, before the single-synonym 0.7 fallback is
reached. -/
theorem claim_C5_counterexample :
    evaluate_answer (str "friendly") (str "nice") [] defaultSettings ≠
      some (true, true, mkRat 7 10) := by decide

/-- Claim C5 (amended): with default settings and an empty acceptable
list, evaluating two distinct single words that share a synonym group and
have no textual overlap (no whitespace in either, neither a substring of
the other — e.g. "friendly" against "nice") returns is_correct true,
is_partial true and correctness score 1: the synonym word-set similarity
tier computes matches / max set sizes = 1/1, so the single-synonym 0.7
fallback is never reached for such pairs. -/
theorem claim_C5_synonym_match (A B : Str)
    (hAB : A ≠ B)
    (hA : ∀ c ∈ A, isSpaceChar c = false)
    (hB : ∀ c ∈ B, isSpaceChar c = false)
    (hsyn : ∃ g ∈ SYNONYM_GROUPS, A ∈ g ∧ B ∈ g)
    (hsubAB : containsSub A B = false)
    (hsubBA : containsSub B A = false) :
    evaluate_answer A B [] defaultSettings = some (true, true, 1) := by
  have hgroups : ∀ g ∈ SYNONYM_GROUPS, ∀ w ∈ g, w ≠ [] ∧ lower w = w := by decide
  obtain ⟨g, hg, hAg, hBg⟩ := hsyn
  have hAne : A ≠ [] := (hgroups g hg A hAg).1
  have hBne : B ≠ [] := (hgroups g hg B hBg).1
  have hAlow : lower A = A := (hgroups g hg A hAg).2
  have hBlow : lower B = B := (hgroups g hg B hBg).2
  have eA : strip (lower A) = A := by rw [hAlow]; exact strip_eq_self_of_none A hA
  have eB : strip (lower B) = B := by rw [hBlow]; exact strip_eq_self_of_none B hB
  have hwA : wordSet A = [A] := by
    unfold wordSet
    rw [splitWs_single A hAne hA]
    simp
  have hwB : wordSet B = [B] := by
    unfold wordSet
    rw [splitWs_single B hBne hB]
    simp
  have hfindAB : find_synonym_match A B = true := by
    unfold find_synonym_match
    simp only [eA, eB]
    rw [List.any_eq_true]
    exact ⟨g, hg, by simp [hAg, hBg]⟩
  have hwsAB : words_are_similar [A] [B] = (true, 1) := by
    unfold words_are_similar
    rw [if_neg (by simp [hAne, hBne])]
    simp [hfindAB]
    decide
  have hcomAB : setInter [A] [B] = [] := by
    unfold setInter
    simp [hAB]
  have hsubA : ∀ x ∈ extract_significant_words A, x = A := by
    intro x hx
    unfold extract_significant_words at hx
    rw [hAlow, hwA] at hx
    unfold setDiff at hx
    rcases List.mem_filter.mp hx with ⟨hx1, -⟩
    exact List.mem_singleton.mp hx1
  have hsubB : ∀ x ∈ extract_significant_words B, x = B := by
    intro x hx
    unfold extract_significant_words at hx
    rw [hBlow, hwB] at hx
    unfold setDiff at hx
    rcases List.mem_filter.mp hx with ⟨hx1, -⟩
    exact List.mem_singleton.mp hx1
  have hsigcomAB : setInter (extract_significant_words A)
      (extract_significant_words B) = [] := by
    unfold setInter
    rw [List.filter_eq_nil_iff]
    intro x hx
    simp only [decide_eq_true_eq]
    intro hmem
    rw [hsubA x hx] at hmem
    exact hAB (hsubB A hmem)
  have hpart : ¬ (defaultSettings.match_partial_substring = true ∧
      (containsSub B A = true ∨ containsSub A B = true)) := by
    rintro ⟨-, hc | hc⟩
    · rw [hsubBA] at hc
      exact Bool.false_ne_true hc
    · rw [hsubAB] at hc
      exact Bool.false_ne_true hc
  have hrest : evalRest A B defaultSettings = (true, true, 1) := by
    simp only [evalRest]
    rw [hwA, hwB, if_neg hpart]
    simp [defaultSettings, hcomAB, hsigcomAB, hwsAB]
  have hfnB : ¬ (defaultSettings.match_first_name_only = true ∧ ' ' ∈ B) :=
    fun hc => absurd (hB ' ' hc.2) (by decide)
  have hacc2 : ¬ (defaultSettings.match_acceptable_alternatives = true ∧
      false = true) :=
    fun hc => Bool.false_ne_true hc.2
  simp only [evaluate_answer, List.any_nil]
  rw [eA, eB]
  rw [if_neg hAne, if_neg hAB, if_neg hacc2, if_neg hfnB, hrest]

theorem claim_C5_witness :
    evaluate_answer (str "friendly") (str "nice") [] defaultSettings =
      some (true, true, 1) :=
  claim_C5_synonym_match (str "friendly") (str "nice")
    (by decide) (by decide) (by decide) (by decide) (by decide) (by decide)

/-- Claim C8: with fewer than two contacts, question generation returns
the empty list (in particular it cannot raise), for any shuffle outcome. -/
theorem claim_C8_insufficient_contacts (contacts shuffled : List Contact)
    (h : contacts.length < 2) :
    generate_questions_for_contacts contacts shuffled = some [] := by
  unfold generate_questions_for_contacts
  rw [if_pos h]

theorem claim_C8_witness :
    generate_questions_for_contacts [] [] = some [] :=
  claim_C8_insufficient_contacts [] [] (by decide)

lemma acceptable_any_filter (ul : Str) (acc : List Str) :
    acc.any (fun alt => decide (alt ≠ []) && decide (ul = lower alt)) =
      (acc.filter (fun a => decide (a ≠ []))).any
        (fun alt => decide (alt ≠ []) && decide (ul = lower alt)) := by
  induction acc with
  | nil => rfl
  | cons a t ih =>
    by_cases ha : a = []
    · subst ha
      simp [ih]
    · simp [List.filter_cons, List.any_cons, ha, ih]

/-- Claim C10: the evaluation result depends on acceptable_answers only
through its non-empty entries, so inserting any number of empty strings
at any positions leaves the result unchanged. -/
theorem claim_C10_empty_alternatives_ignored (ua e : Str) (acc1 acc2 : List Str)
    (s : EvalSettings)
    (h : acc1.filter (fun a => decide (a ≠ [])) =
         acc2.filter (fun a => decide (a ≠ []))) :
    evaluate_answer ua e acc1 s = evaluate_answer ua e acc2 s := by
  simp only [evaluate_answer]
  rw [acceptable_any_filter (strip (lower ua)) acc1,
    acceptable_any_filter (strip (lower ua)) acc2, h]

theorem claim_C10_witness :
    evaluate_answer (str "pal") (str "buddy") [[], str "pal", []] defaultSettings =
      evaluate_answer (str "pal") (str "buddy") [str "pal"] defaultSettings :=
  claim_C10_empty_alternatives_ignored (str "pal") (str "buddy")
    [[], str "pal", []] [str "pal"] defaultSettings (by decide)

/-- Claim C9: a non-empty user answer consisting only of whitespace,
evaluated against an expected answer containing a non-whitespace
character with the partial-substring strategy enabled, yields
`(true, true, 0.8)`: the whitespace-only answer passes the empty-input
guard, strips to the empty string, and the empty string is a substring
of every expected answer. -/
theorem claim_C9_whitespace_user (U E : Str) (acceptable : List Str)
    (s : EvalSettings)
    (hU : U ≠ []) (hUsp : ∀ c ∈ U, isSpaceChar c = true)
    (hE : ∃ c ∈ E, isSpaceChar c = false)
    (hp : s.match_partial_substring = true) :
    evaluate_answer U E acceptable s = some (true, true, mkRat 8 10) := by
  have hul : strip (lower U) = [] := strip_eq_nil_of_all _ (lower_all_space U hUsp)
  have hel : strip (lower E) ≠ [] := strip_ne_nil _ (lower_exists_nonspace E hE)
  have hrest : evalRest (strip (lower U)) (strip (lower E)) s =
      (true, true, mkRat 8 10) := by
    simp only [evalRest]
    rw [if_pos ⟨hp, Or.inr (by rw [hul]; exact containsSub_nil _)⟩]
  have hexact : ¬ (strip (lower U) = strip (lower E)) := by
    rw [hul]
    exact fun hc => hel hc.symm
  have hany : acceptable.any
      (fun alt => decide (alt ≠ []) && decide (strip (lower U) = lower alt)) = false := by
    rw [List.any_eq_false]
    intro alt _
    simp only [Bool.and_eq_true, decide_eq_true_eq, not_and]
    intro ha hc
    rw [hul] at hc
    exact lower_ne_nil alt ha hc.symm
  have hacc : ¬ (s.match_acceptable_alternatives = true ∧
      acceptable.any
        (fun alt => decide (alt ≠ []) && decide (strip (lower U) = lower alt)) = true) := by
    rintro ⟨-, hc⟩
    rw [hany] at hc
    exact Bool.false_ne_true hc
  simp only [evaluate_answer]
  rw [if_neg hU, if_neg hexact, if_neg hacc]
  by_cases hfn : s.match_first_name_only = true ∧ ' ' ∈ E
  · rw [if_pos hfn]
    rcases hw : splitWs E with _ | ⟨w, ws⟩
    · exact absurd hw (splitWs_ne_nil E hE)
    · have hwne : w ≠ [] :=
        mem_splitWs_ne_nil E w (by rw [hw]; exact List.mem_cons_self _ _)
      have hnw : ¬ (strip (lower U) = lower w) := by
        rw [hul]
        exact fun hc => lower_ne_nil w hwne hc.symm
      simp only
      rw [if_neg hnw, hrest]
  · rw [if_neg hfn, hrest]

theorem claim_C9_witness :
    evaluate_answer (str "  ") (str "hi there") [str "zz"] defaultSettings =
      some (true, true, mkRat 8 10) :=
  claim_C9_whitespace_user (str "  ") (str "hi there") [str "zz"] defaultSettings
    (by decide) (by decide) (by decide) (by decide)

/-- Claim C6: when stop-word filtering is enabled, the exact,
acceptable-alternatives, first-name, substring and word-overlap tiers all
fail, and after stop-word removal both significant-word sets are non-empty
and share at least one word, `evaluate_answer` returns
`(true, true, max 0.7 r)` where `r` is the shared-word count divided by
the larger significant-word set size. -/
theorem claim_C6_stop_word_tier (U E : Str) (acceptable : List Str)
    (s : EvalSettings)
    (hU : U ≠ [])
    (hstop : s.match_stop_word_filtering = true)
    (hexact : strip (lower U) ≠ strip (lower E))
    (hacc : ¬ (s.match_acceptable_alternatives = true ∧
      acceptable.any
        (fun alt => decide (alt ≠ []) && decide (strip (lower U) = lower alt)) = true))
    (hfn : (s.match_first_name_only = true ∧ ' ' ∈ E) →
      (splitWs E ≠ [] ∧ strip (lower U) ≠ lower ((splitWs E).headD [])))
    (hpart : ¬ (s.match_partial_substring = true ∧
      (containsSub (strip (lower E)) (strip (lower U)) = true ∨
       containsSub (strip (lower U)) (strip (lower E)) = true)))
    (hover : ¬ (s.match_word_overlap = true ∧
      setInter (wordSet (strip (lower U))) (wordSet (strip (lower E))) ≠ [] ∧
      mkRat (setInter (wordSet (strip (lower U))) (wordSet (strip (lower E)))).length
        (max (wordSet (strip (lower U))).length (wordSet (strip (lower E))).length) ≥
        mkRat 1 2))
    (husig : extract_significant_words (strip (lower U)) ≠ [])
    (hesig : extract_significant_words (strip (lower E)) ≠ [])
    (hcommon : setInter (extract_significant_words (strip (lower U)))
      (extract_significant_words (strip (lower E))) ≠ []) :
    evaluate_answer U E acceptable s = some (true, true,
      max (mkRat 7 10)
        (mkRat (setInter (extract_significant_words (strip (lower U)))
            (extract_significant_words (strip (lower E)))).length
          (max (extract_significant_words (strip (lower U))).length
            (extract_significant_words (strip (lower E))).length))) := by
  have hrest : evalRest (strip (lower U)) (strip (lower E)) s = (true, true,
      max (mkRat 7 10)
        (mkRat (setInter (extract_significant_words (strip (lower U)))
            (extract_significant_words (strip (lower E)))).length
          (max (extract_significant_words (strip (lower U))).length
            (extract_significant_words (strip (lower E))).length))) := by
    simp only [evalRest]
    rw [if_neg hpart, if_neg hover,
      if_pos ⟨hstop, husig, hesig, hcommon, Or.inr (List.length_pos.mpr hcommon)⟩]
  simp only [evaluate_answer]
  rw [if_neg hU, if_neg hexact, if_neg hacc]
  by_cases hfn2 : s.match_first_name_only = true ∧ ' ' ∈ E
  · rw [if_pos hfn2]
    obtain ⟨hsne, hshead⟩ := hfn hfn2
    rcases hw : splitWs E with _ | ⟨w, ws⟩
    · exact absurd hw hsne
    · rw [hw] at hshead
      simp only [List.headD_cons] at hshead
      simp only
      rw [if_neg hshead, hrest]
  · rw [if_neg hfn2, hrest]

theorem claim_C6_witness :
    evaluate_answer (str "big green apple") (str "red apple") [] defaultSettings =
      some (true, true,
        max (mkRat 7 10)
          (mkRat (setInter
              (extract_significant_words (strip (lower (str "big green apple"))))
              (extract_significant_words (strip (lower (str "red apple"))))).length
            (max (extract_significant_words (strip (lower (str "big green apple")))).length
              (extract_significant_words (strip (lower (str "red apple")))).length))) :=
  claim_C6_stop_word_tier (str "big green apple") (str "red apple") [] defaultSettings
    (by decide) (by decide) (by decide) (by decide) (by decide) (by decide)
    (by decide) (by decide) (by decide) (by decide)

/-- Claim C7: for every pair of distinct single synonymous words — no
whitespace in either, both members of a common synonym group — evaluation
with an empty acceptable list is symmetric in the two words, for every
settings value. -/
theorem claim_C7_synonym_symmetric (A B : Str) (s : EvalSettings)
    (hAB : A ≠ B)
    (hA : ∀ c ∈ A, isSpaceChar c = false)
    (hB : ∀ c ∈ B, isSpaceChar c = false)
    (hsyn : ∃ g ∈ SYNONYM_GROUPS, A ∈ g ∧ B ∈ g) :
    evaluate_answer A B [] s = evaluate_answer B A [] s := by
  have hgroups : ∀ g ∈ SYNONYM_GROUPS, ∀ w ∈ g, w ≠ [] ∧ lower w = w := by decide
  obtain ⟨g, hg, hAg, hBg⟩ := hsyn
  have hAne : A ≠ [] := (hgroups g hg A hAg).1
  have hBne : B ≠ [] := (hgroups g hg B hBg).1
  have hAlow : lower A = A := (hgroups g hg A hAg).2
  have hBlow : lower B = B := (hgroups g hg B hBg).2
  have eA : strip (lower A) = A := by rw [hAlow]; exact strip_eq_self_of_none A hA
  have eB : strip (lower B) = B := by rw [hBlow]; exact strip_eq_self_of_none B hB
  have hwA : wordSet A = [A] := by
    unfold wordSet
    rw [splitWs_single A hAne hA]
    simp
  have hwB : wordSet B = [B] := by
    unfold wordSet
    rw [splitWs_single B hBne hB]
    simp
  have hfindAB : find_synonym_match A B = true := by
    unfold find_synonym_match
    simp only [eA, eB]
    rw [List.any_eq_true]
    exact ⟨g, hg, by simp [hAg, hBg]⟩
  have hfindBA : find_synonym_match B A = true := by
    unfold find_synonym_match
    simp only [eA, eB]
    rw [List.any_eq_true]
    exact ⟨g, hg, by simp [hAg, hBg]⟩
  have hwsAB : words_are_similar [A] [B] = (true, 1) := by
    unfold words_are_similar
    rw [if_neg (by simp [hAne, hBne])]
    simp [hfindAB]
    decide
  have hwsBA : words_are_similar [B] [A] = (true, 1) := by
    unfold words_are_similar
    rw [if_neg (by simp [hAne, hBne])]
    simp [hfindBA]
    decide
  have hcomAB : setInter [A] [B] = [] := by
    unfold setInter
    simp [hAB]
  have hcomBA : setInter [B] [A] = [] := by
    unfold setInter
    simp [Ne.symm hAB]
  have hsubA : ∀ x ∈ extract_significant_words A, x = A := by
    intro x hx
    unfold extract_significant_words at hx
    rw [hAlow, hwA] at hx
    unfold setDiff at hx
    rcases List.mem_filter.mp hx with ⟨hx1, -⟩
    exact List.mem_singleton.mp hx1
  have hsubB : ∀ x ∈ extract_significant_words B, x = B := by
    intro x hx
    unfold extract_significant_words at hx
    rw [hBlow, hwB] at hx
    unfold setDiff at hx
    rcases List.mem_filter.mp hx with ⟨hx1, -⟩
    exact List.mem_singleton.mp hx1
  have hsigcomAB : setInter (extract_significant_words A)
      (extract_significant_words B) = [] := by
    unfold setInter
    rw [List.filter_eq_nil_iff]
    intro x hx
    simp only [decide_eq_true_eq]
    intro hmem
    rw [hsubA x hx] at hmem
    exact hAB (hsubB A hmem)
  have hsigcomBA : setInter (extract_significant_words B)
      (extract_significant_words A) = [] := by
    unfold setInter
    rw [List.filter_eq_nil_iff]
    intro x hx
    simp only [decide_eq_true_eq]
    intro hmem
    rw [hsubB x hx] at hmem
    exact hAB (hsubA B hmem).symm
  have key : evalRest A B s = evalRest B A s := by
    simp only [evalRest]
    rw [hwA, hwB]
    by_cases hpart : s.match_partial_substring = true ∧
        (containsSub B A = true ∨ containsSub A B = true)
    · rw [if_pos hpart, if_pos ⟨hpart.1, hpart.2.symm⟩]
    · have hpart2 : ¬ (s.match_partial_substring = true ∧
          (containsSub A B = true ∨ containsSub B A = true)) :=
        fun hc => hpart ⟨hc.1, hc.2.symm⟩
      rw [if_neg hpart, if_neg hpart2]
      simp [hcomAB, hcomBA, hsigcomAB, hsigcomBA, hwsAB, hwsBA]
  have hfnB : ¬ (s.match_first_name_only = true ∧ ' ' ∈ B) :=
    fun hc => absurd (hB ' ' hc.2) (by decide)
  have hfnA : ¬ (s.match_first_name_only = true ∧ ' ' ∈ A) :=
    fun hc => absurd (hA ' ' hc.2) (by decide)
  simp only [evaluate_answer, List.any_nil]
  rw [eA, eB]
  rw [if_neg hAne, if_neg hBne, if_neg hAB, if_neg (Ne.symm hAB)]
  have hacc2 : ¬ (s.match_acceptable_alternatives = true ∧ false = true) :=
    fun hc => Bool.false_ne_true hc.2
  rw [if_neg hacc2, if_neg hacc2]
  rw [if_neg hfnB, if_neg hfnA, key]

theorem claim_C7_witness :
    evaluate_answer (str "friendly") (str "warm") [] defaultSettings =
      evaluate_answer (str "warm") (str "friendly") [] defaultSettings :=
  claim_C7_synonym_symmetric (str "friendly") (str "warm") defaultSettings
    (by decide) (by decide) (by decide) (by decide)
